import Mathlib

/-!
Shallow embedding of the "SHAPES" morphing-animation scheduler:
the `useAnimations` hook (frame scheduler, telemetry) and the sequence
store in `src/data/fileContent.js` (`morphSequences`, `getMorphSequence`,
`getSequenceNames`).

Modelling conventions:
- Timestamps and intervals are integers (milliseconds), as `Int`, so that
  subtraction of timestamps is exact.
- JS floating-point averages (`avgFrameTime`, `fps`) are modelled over `ℚ`;
  `Math.round` becomes `Rat.round` (both round half toward plus infinity
  on the values that occur here).
- The React state variables and refs of the hook are gathered into one
  record `AnimState`; `setX` calls and `xRef.current = v` writes both
  become field updates, applied in source order within each operation.
- The host scheduling primitive (`requestAnimationFrame` /
  `cancelAnimationFrame`, driven by the `useEffect` at the bottom of the
  hook) is modelled by a single boolean `pending`: `true` while a callback
  is registered with the host.  The scheduling `useEffect` is folded into
  the operation that flips `isAnimating`.
- `animationLoop` becomes a function `Int → AnimState → AnimState` taking
  the callback timestamp; a run of the loop is a left fold over the list
  of callback timestamps.
-/

namespace Shapes

/-! ## Sequence store (`src/data/fileContent.js`) -/

/-- `morphSequences.identity` : the four frames of the identity sequence. -/
def identitySeq : List String :=
  ["███████╗██╗  ██╗ █████╗ ██████╗ ███████╗███████╗
██╔════╝██║  ██║██╔══██╗██╔══██╗██╔════╝██╔════╝
███████╗███████║███████║██████╔╝█████╗  ███████╗
╚════██║██╔══██║██╔══██║██╔═══╝ ██╔══╝  ╚════██║
███████║██║  ██║██║  ██║██║     ███████╗███████║
╚══════╝╚═╝  ╚═╝╚═╝  ╚═╝╚═╝     ╚══════╝╚══════╝",
   "░░░░░░░░░░░░░░░░░░░░░░░░░░░░░░░░░░░░░░░░░░░░░░░░░
░      ░░  ░░░░  ░░░░░░░░░░░░░░░░░░░░░░░░░░      ░
░      ░░    ░░    ░░    ░░░░░░░░░░░░░░░░        ░
░      ░░    ░░    ░░    ░░    ░░░░        ░░    ░
░░░░░░░░░░░░░░░░░░░░░░░░░░░░░░░░░░░░░░░░░░░░░░░░░",
   "     ○ ─ ○ ─ ○
    ╱         ╲
   ○     ●     ○
    ╲         ╱
     ○ ─ ○ ─ ○",
   "╔════════════════════════\u2550════════════════════════╗
║ RITUAL TECHNOLOGIES FOR COLLECTIVE HEALING      ║
╚════════════════════════\u2550════════════════════════╝"]

/-- `morphSequences.loading` : the four frames of the loading sequence. -/
def loadingSeq : List String :=
  ["○     ○     ○
  ○ ○   ○ ○
○       ○       ○
  ○ ○   ○ ○
○     ○     ○",
   "  ○   ○   ○
 ○ ○ ○ ○ ○
○ ○ ○ ○ ○ ○
 ○ ○ ○ ○ ○
  ○   ○   ○",
   "   ░░░░░
  ░░░░░░░
 ░░░███░░░
  ░░░░░░░
   ░░░░░",
   "  ┌─────┐
  │ ███ │
  │ ███ │
  │ ███ │
  └─────┘"]

/-- `morphSequences.concepts` : the four frames of the concepts sequence. -/
def conceptsSeq : List String :=
  ["SHAPES ==

    ○ ○ ○ ○ ○
  ○           ○
 ○      ●      ○
  ○           ○
    ○ ○ ○ ○ ○",
   "SHAPES ==

    ◊   ◊   ◊
      \\ | /
  ◊ ── ◊ ── ◊
      / | \\
    ◊   ◊   ◊",
   "SHAPES ==

  ○─────○─────○
  │  ╲  │  ╱  │
  │   ╲ │ ╱   │
  ○─────○─────○
  │   ╱ │ ╲   │
  │  ╱  │  ╲  │
  ○─────○─────○",
   "SHAPES ==

   ░░░░░░░░░░░
  ░ ○ ○ ○ ○ ○ ░
  ░ ○ ░░░░░ ○ ░
  ░ ○ ░ ● ░ ○ ░
  ░ ○ ░░░░░ ○ ░
  ░ ○ ○ ○ ○ ○ ░
   ░░░░░░░░░░░"]

/-- The `morphSequences` object: sequence name to frame list, in key order. -/
def morphSequences : List (String × List String) :=
  [("identity", identitySeq), ("loading", loadingSeq), ("concepts", conceptsSeq)]

/-- `getMorphSequence`: `morphSequences[sequenceName] || morphSequences.identity`.
A missing key (`undefined`) falls back to the identity sequence.  (In JS an
empty array would be truthy and returned as-is; no registered value is
empty, so `none` is the only fallback path.) -/
def getMorphSequence (sequenceName : String) : List String :=
  match morphSequences.lookup sequenceName with
  | some s => s
  | none => identitySeq

/-- `getSequenceNames`: `Object.keys(morphSequences)`. -/
def getSequenceNames : List String :=
  morphSequences.map Prod.fst

/-! ## Scheduler state (`useAnimations` in the hook source) -/

/-- The published `performanceMetrics` React state object. -/
structure PerformanceMetrics where
  fps : Int
  frameTime : Int
  droppedFrames : Nat
  totalFrames : Nat
deriving Repr, DecidableEq

/-- All React state and refs of `useAnimations`, in declaration order. -/
structure AnimState where
  isAnimating : Bool
  currentSequence : String
  currentFrame : Nat
  animationSpeed : Int
  performanceMetrics : PerformanceMetrics
  /-- `animationRef`: whether a host callback is currently registered. -/
  pending : Bool
  lastFrameTime : Int
  frameCount : Nat
  droppedFrames : Nat
  sequenceData : List String
  startTime : Int
  performanceStart : Int
  frameTimes : List Int
deriving Repr, DecidableEq

/-- The initial hook state (the `useState` / `useRef` initialisers). -/
def initState : AnimState :=
  { isAnimating := false
    currentSequence := "identity"
    currentFrame := 0
    animationSpeed := 1000
    performanceMetrics := { fps := 0, frameTime := 0, droppedFrames := 0, totalFrames := 0 }
    pending := false
    lastFrameTime := 0
    frameCount := 0
    droppedFrames := 0
    sequenceData := []
    startTime := 0
    performanceStart := 0
    frameTimes := [] }

/-- `updatePerformanceMetrics(currentTime)`: push this callback's gap into
the rolling window (shifting past 60 entries), recompute the averages,
bump the dropped-frame counter on a gap above 20ms, and publish the
snapshot (note the snapshot's `totalFrames` reads `frameCountRef` before
the caller increments it). -/
def updatePerformanceMetrics (currentTime : Int) (s : AnimState) : AnimState :=
  let frameTime := currentTime - s.lastFrameTime
  let pushed := s.frameTimes ++ [frameTime]
  let window := if pushed.length > 60 then pushed.drop 1 else pushed
  let avgFrameTime : ℚ := (window.sum : ℚ) / (window.length : ℚ)
  let fps : ℚ := if avgFrameTime > 0 then 1000 / avgFrameTime else 0
  let dropped := if frameTime > 20 then s.droppedFrames + 1 else s.droppedFrames
  { s with
    frameTimes := window
    droppedFrames := dropped
    performanceMetrics :=
      { fps := round fps
        frameTime := round avgFrameTime
        droppedFrames := dropped
        totalFrames := s.frameCount } }

/-- `animationLoop`, lines "Initialize timing on first frame": on the first
callback after a (re)start, `performanceStartRef` is 0 and all three timing
refs are set to the callback timestamp. -/
def initTiming (currentTime : Int) (s : AnimState) : AnimState :=
  if s.performanceStart = 0 then
    { s with performanceStart := currentTime, lastFrameTime := currentTime,
             startTime := currentTime }
  else s

/-- `animationLoop`, lines "Advance to next frame": bump the frame index
modulo the sequence length and count the advance, when a sequence is
loaded. -/
def advanceFrame (s : AnimState) : AnimState :=
  if s.sequenceData.length > 0 then
    { s with currentFrame := (s.currentFrame + 1) % s.sequenceData.length,
             frameCount := s.frameCount + 1 }
  else s

/-- `animationLoop`, the `shouldAdvanceFrame` block: when the elapsed time
since the last advance has reached `animationSpeed`, update the metrics,
advance the frame and reset the elapsed-time baseline. -/
def advanceIfDue (currentTime : Int) (s : AnimState) : AnimState :=
  if s.animationSpeed ≤ currentTime - s.startTime then
    { advanceFrame (updatePerformanceMetrics currentTime s) with
      startTime := currentTime }
  else s

/-- One execution of `animationLoop(currentTime)`: initialise timing if
needed, run the advance-if-due block, unconditionally update
`lastFrameTimeRef`, and re-register with the host while animating. -/
def animationLoop (currentTime : Int) (s : AnimState) : AnimState :=
  if (advanceIfDue currentTime (initTiming currentTime s)).isAnimating then
    { advanceIfDue currentTime (initTiming currentTime s) with
      lastFrameTime := currentTime, pending := true }
  else
    { advanceIfDue currentTime (initTiming currentTime s) with
      lastFrameTime := currentTime }

/-- A run of the animation loop over a list of callback timestamps. -/
def runTicks (ts : List Int) (s : AnimState) : AnimState :=
  ts.foldl (fun s t => animationLoop t s) s

/-- `startMorphing(sequenceName, speed)`: resolve the name through the
store (warning-and-fallback for unknown names), refuse empty sequences,
otherwise reset frame index, counters and window and start animating. -/
def startMorphing (sequenceName : String) (speed : Int) (s : AnimState) : AnimState :=
  let sequenceName :=
    if getSequenceNames.contains sequenceName then sequenceName else "identity"
  let sequence := getMorphSequence sequenceName
  if sequence.length = 0 then s
  else
    { s with
      currentSequence := sequenceName
      animationSpeed := speed
      currentFrame := 0
      sequenceData := sequence
      frameCount := 0
      droppedFrames := 0
      frameTimes := []
      performanceStart := 0
      isAnimating := true
      -- the scheduling effect registers the loop once isAnimating is true
      pending := true }

/-- `stopMorphing()`: stop animating, cancel the registered callback and
reset the timing refs.  The frame index, the counters, the rolling window
and the published metrics snapshot are left untouched. -/
def stopMorphing (s : AnimState) : AnimState :=
  { s with
    isAnimating := false
    pending := false
    lastFrameTime := 0
    startTime := 0
    performanceStart := 0 }

/-- `toggleAnimation()`: stop when running; resume when stopped and a
sequence is loaded. -/
def toggleAnimation (s : AnimState) : AnimState :=
  if s.isAnimating then stopMorphing s
  else if s.sequenceData.length > 0 then { s with isAnimating := true, pending := true }
  else s

/-- `changeSpeed(newSpeed)`: update the interval, rejecting non-positive
values. -/
def changeSpeed (newSpeed : Int) (s : AnimState) : AnimState :=
  if newSpeed > 0 then { s with animationSpeed := newSpeed } else s

/-- `jumpToFrame(frameIndex)`: set the frame index when it is in bounds
for the loaded sequence, otherwise do nothing. -/
def jumpToFrame (frameIndex : Int) (s : AnimState) : AnimState :=
  if 0 ≤ frameIndex ∧ frameIndex < (s.sequenceData.length : Int) then
    { s with currentFrame := frameIndex.toNat }
  else s

/-- `getCurrentFrameContent()`: the frame at the current index, or `""`. -/
def getCurrentFrameContent (s : AnimState) : String :=
  if s.sequenceData.length > 0 ∧ s.currentFrame < s.sequenceData.length then
    s.sequenceData.getD s.currentFrame ""
  else ""

end Shapes

namespace Shapes

/-! ## Helper lemmas on the sequence store -/

/-- Case analysis of `morphSequences.lookup`: a name resolves to one of the
three registered sequences, or it is unregistered and the lookup misses. -/
lemma lookup_morphSequences_cases (name : String) :
    (name = "identity" ∧ morphSequences.lookup name = some identitySeq) ∨
    (name = "loading" ∧ morphSequences.lookup name = some loadingSeq) ∨
    (name = "concepts" ∧ morphSequences.lookup name = some conceptsSeq) ∨
    (name ∉ getSequenceNames ∧ morphSequences.lookup name = none) := by
  by_cases h1 : name = "identity"
  · subst h1; left; exact ⟨rfl, by simp [morphSequences, List.lookup]⟩
  · by_cases h2 : name = "loading"
    · subst h2; right; left; exact ⟨rfl, by simp [morphSequences, List.lookup]⟩
    · by_cases h3 : name = "concepts"
      · subst h3; right; right; left
        exact ⟨rfl, by simp [morphSequences, List.lookup]⟩
      · right; right; right
        constructor
        · simp [getSequenceNames, morphSequences, h1, h2, h3]
        · simp [morphSequences, List.lookup, beq_eq_false_iff_ne.mpr h1,
                beq_eq_false_iff_ne.mpr h2, beq_eq_false_iff_ne.mpr h3]

/-- Every store lookup result is non-empty. -/
lemma getMorphSequence_pos (name : String) : 0 < (getMorphSequence name).length := by
  unfold getMorphSequence
  rcases lookup_morphSequences_cases name with ⟨_, h⟩ | ⟨_, h⟩ | ⟨_, h⟩ | ⟨_, h⟩ <;>
    rw [h] <;> decide

/-- An unregistered name falls back to the identity sequence. -/
lemma getMorphSequence_of_not_mem (name : String) (h : name ∉ getSequenceNames) :
    getMorphSequence name = identitySeq := by
  unfold getMorphSequence
  rcases lookup_morphSequences_cases name with ⟨hn, _⟩ | ⟨hn, _⟩ | ⟨hn, _⟩ | ⟨_, hl⟩
  · exact absurd (hn ▸ (by decide : ("identity" : String) ∈ getSequenceNames)) h
  · exact absurd (hn ▸ (by decide : ("loading" : String) ∈ getSequenceNames)) h
  · exact absurd (hn ▸ (by decide : ("concepts" : String) ∈ getSequenceNames)) h
  · rw [hl]

/-! ## Helper lemmas on the scheduler operations -/

/-- Since every store lookup is non-empty, `startMorphing` never takes its
empty-sequence early return: it is exactly the reset-and-go update. -/
lemma startMorphing_eq (n : String) (sp : Int) (s : AnimState) :
    startMorphing n sp s =
      { s with
        currentSequence := if getSequenceNames.contains n then n else "identity"
        animationSpeed := sp
        currentFrame := 0
        sequenceData := getMorphSequence (if getSequenceNames.contains n then n else "identity")
        frameCount := 0
        droppedFrames := 0
        frameTimes := []
        performanceStart := 0
        isAnimating := true
        pending := true } := by
  unfold startMorphing
  have hp := getMorphSequence_pos (if getSequenceNames.contains n then n else "identity")
  rw [if_neg (by omega)]

end Shapes

namespace Shapes

/-! Field lemmas: which fields each step of the loop leaves unchanged. -/

@[simp] lemma updatePerformanceMetrics_isAnimating (t : Int) (s : AnimState) :
    (updatePerformanceMetrics t s).isAnimating = s.isAnimating := rfl

@[simp] lemma updatePerformanceMetrics_currentSequence (t : Int) (s : AnimState) :
    (updatePerformanceMetrics t s).currentSequence = s.currentSequence := rfl

@[simp] lemma updatePerformanceMetrics_currentFrame (t : Int) (s : AnimState) :
    (updatePerformanceMetrics t s).currentFrame = s.currentFrame := rfl

@[simp] lemma updatePerformanceMetrics_animationSpeed (t : Int) (s : AnimState) :
    (updatePerformanceMetrics t s).animationSpeed = s.animationSpeed := rfl

@[simp] lemma updatePerformanceMetrics_pending (t : Int) (s : AnimState) :
    (updatePerformanceMetrics t s).pending = s.pending := rfl

@[simp] lemma updatePerformanceMetrics_lastFrameTime (t : Int) (s : AnimState) :
    (updatePerformanceMetrics t s).lastFrameTime = s.lastFrameTime := rfl

@[simp] lemma updatePerformanceMetrics_frameCount (t : Int) (s : AnimState) :
    (updatePerformanceMetrics t s).frameCount = s.frameCount := rfl

@[simp] lemma updatePerformanceMetrics_sequenceData (t : Int) (s : AnimState) :
    (updatePerformanceMetrics t s).sequenceData = s.sequenceData := rfl

@[simp] lemma updatePerformanceMetrics_startTime (t : Int) (s : AnimState) :
    (updatePerformanceMetrics t s).startTime = s.startTime := rfl

@[simp] lemma updatePerformanceMetrics_performanceStart (t : Int) (s : AnimState) :
    (updatePerformanceMetrics t s).performanceStart = s.performanceStart := rfl

/-- The rolling window after `updatePerformanceMetrics`: the gap since the
previous callback is appended, and the oldest entry shifted out past 60. -/
lemma updatePerformanceMetrics_frameTimes (t : Int) (s : AnimState) :
    (updatePerformanceMetrics t s).frameTimes =
      (if (s.frameTimes ++ [t - s.lastFrameTime]).length > 60
       then (s.frameTimes ++ [t - s.lastFrameTime]).drop 1
       else s.frameTimes ++ [t - s.lastFrameTime]) := rfl

/-- The dropped-frame counter after `updatePerformanceMetrics`. -/
lemma updatePerformanceMetrics_droppedFrames (t : Int) (s : AnimState) :
    (updatePerformanceMetrics t s).droppedFrames =
      (if t - s.lastFrameTime > 20 then s.droppedFrames + 1 else s.droppedFrames) := rfl

@[simp] lemma initTiming_isAnimating (t : Int) (s : AnimState) :
    (initTiming t s).isAnimating = s.isAnimating := by
  unfold initTiming; split <;> rfl

@[simp] lemma initTiming_currentSequence (t : Int) (s : AnimState) :
    (initTiming t s).currentSequence = s.currentSequence := by
  unfold initTiming; split <;> rfl

@[simp] lemma initTiming_currentFrame (t : Int) (s : AnimState) :
    (initTiming t s).currentFrame = s.currentFrame := by
  unfold initTiming; split <;> rfl

@[simp] lemma initTiming_animationSpeed (t : Int) (s : AnimState) :
    (initTiming t s).animationSpeed = s.animationSpeed := by
  unfold initTiming; split <;> rfl

@[simp] lemma initTiming_performanceMetrics (t : Int) (s : AnimState) :
    (initTiming t s).performanceMetrics = s.performanceMetrics := by
  unfold initTiming; split <;> rfl

@[simp] lemma initTiming_pending (t : Int) (s : AnimState) :
    (initTiming t s).pending = s.pending := by
  unfold initTiming; split <;> rfl

@[simp] lemma initTiming_frameCount (t : Int) (s : AnimState) :
    (initTiming t s).frameCount = s.frameCount := by
  unfold initTiming; split <;> rfl

@[simp] lemma initTiming_droppedFrames (t : Int) (s : AnimState) :
    (initTiming t s).droppedFrames = s.droppedFrames := by
  unfold initTiming; split <;> rfl

@[simp] lemma initTiming_sequenceData (t : Int) (s : AnimState) :
    (initTiming t s).sequenceData = s.sequenceData := by
  unfold initTiming; split <;> rfl

@[simp] lemma initTiming_frameTimes (t : Int) (s : AnimState) :
    (initTiming t s).frameTimes = s.frameTimes := by
  unfold initTiming; split <;> rfl

/-- `initTiming` is the identity when the timing refs are initialised. -/
lemma initTiming_of_ne (t : Int) (s : AnimState) (h : s.performanceStart ≠ 0) :
    initTiming t s = s := if_neg h

@[simp] lemma advanceFrame_isAnimating (s : AnimState) :
    (advanceFrame s).isAnimating = s.isAnimating := by
  unfold advanceFrame; split <;> rfl

@[simp] lemma advanceFrame_currentSequence (s : AnimState) :
    (advanceFrame s).currentSequence = s.currentSequence := by
  unfold advanceFrame; split <;> rfl

@[simp] lemma advanceFrame_animationSpeed (s : AnimState) :
    (advanceFrame s).animationSpeed = s.animationSpeed := by
  unfold advanceFrame; split <;> rfl

@[simp] lemma advanceFrame_performanceMetrics (s : AnimState) :
    (advanceFrame s).performanceMetrics = s.performanceMetrics := by
  unfold advanceFrame; split <;> rfl

@[simp] lemma advanceFrame_pending (s : AnimState) :
    (advanceFrame s).pending = s.pending := by
  unfold advanceFrame; split <;> rfl

@[simp] lemma advanceFrame_lastFrameTime (s : AnimState) :
    (advanceFrame s).lastFrameTime = s.lastFrameTime := by
  unfold advanceFrame; split <;> rfl

@[simp] lemma advanceFrame_droppedFrames (s : AnimState) :
    (advanceFrame s).droppedFrames = s.droppedFrames := by
  unfold advanceFrame; split <;> rfl

@[simp] lemma advanceFrame_sequenceData (s : AnimState) :
    (advanceFrame s).sequenceData = s.sequenceData := by
  unfold advanceFrame; split <;> rfl

@[simp] lemma advanceFrame_startTime (s : AnimState) :
    (advanceFrame s).startTime = s.startTime := by
  unfold advanceFrame; split <;> rfl

@[simp] lemma advanceFrame_performanceStart (s : AnimState) :
    (advanceFrame s).performanceStart = s.performanceStart := by
  unfold advanceFrame; split <;> rfl

@[simp] lemma advanceFrame_frameTimes (s : AnimState) :
    (advanceFrame s).frameTimes = s.frameTimes := by
  unfold advanceFrame; split <;> rfl

/-- `advanceFrame` either leaves the frame index and count alone (no
sequence loaded) or moves them one step modulo the sequence length. -/
lemma advanceFrame_cases (s : AnimState) :
    (advanceFrame s).currentFrame = s.currentFrame ∧
      (advanceFrame s).frameCount = s.frameCount ∧ s.sequenceData.length = 0 ∨
    0 < s.sequenceData.length ∧
      (advanceFrame s).currentFrame = (s.currentFrame + 1) % s.sequenceData.length ∧
      (advanceFrame s).frameCount = s.frameCount + 1 := by
  unfold advanceFrame
  split
  · exact Or.inr ⟨by omega, rfl, rfl⟩
  · exact Or.inl ⟨rfl, rfl, by omega⟩

/-- The advance-if-due block when the interval has not yet elapsed. -/
lemma advanceIfDue_of_not_due (t : Int) (s : AnimState)
    (h : ¬ s.animationSpeed ≤ t - s.startTime) :
    advanceIfDue t s = s := if_neg h

/-- The advance-if-due block when the interval has elapsed. -/
lemma advanceIfDue_of_due (t : Int) (s : AnimState)
    (h : s.animationSpeed ≤ t - s.startTime) :
    advanceIfDue t s =
      { advanceFrame (updatePerformanceMetrics t s) with startTime := t } := if_pos h

end Shapes

namespace Shapes

@[simp] lemma advanceIfDue_isAnimating (t : Int) (s : AnimState) :
    (advanceIfDue t s).isAnimating = s.isAnimating := by
  unfold advanceIfDue; split <;> simp

@[simp] lemma advanceIfDue_currentSequence (t : Int) (s : AnimState) :
    (advanceIfDue t s).currentSequence = s.currentSequence := by
  unfold advanceIfDue; split <;> simp

@[simp] lemma advanceIfDue_animationSpeed (t : Int) (s : AnimState) :
    (advanceIfDue t s).animationSpeed = s.animationSpeed := by
  unfold advanceIfDue; split <;> simp

@[simp] lemma advanceIfDue_sequenceData (t : Int) (s : AnimState) :
    (advanceIfDue t s).sequenceData = s.sequenceData := by
  unfold advanceIfDue; split <;> simp

@[simp] lemma advanceIfDue_pending (t : Int) (s : AnimState) :
    (advanceIfDue t s).pending = s.pending := by
  unfold advanceIfDue; split <;> simp

@[simp] lemma advanceIfDue_lastFrameTime (t : Int) (s : AnimState) :
    (advanceIfDue t s).lastFrameTime = s.lastFrameTime := by
  unfold advanceIfDue; split <;> simp

@[simp] lemma advanceIfDue_performanceStart (t : Int) (s : AnimState) :
    (advanceIfDue t s).performanceStart = s.performanceStart := by
  unfold advanceIfDue; split <;> simp

/-! Composite lemmas about one whole `animationLoop` execution. -/

@[simp] lemma animationLoop_sequenceData (t : Int) (s : AnimState) :
    (animationLoop t s).sequenceData = s.sequenceData := by
  unfold animationLoop; dsimp only; split <;> simp

@[simp] lemma animationLoop_currentSequence (t : Int) (s : AnimState) :
    (animationLoop t s).currentSequence = s.currentSequence := by
  unfold animationLoop; dsimp only; split <;> simp

@[simp] lemma animationLoop_isAnimating (t : Int) (s : AnimState) :
    (animationLoop t s).isAnimating = s.isAnimating := by
  unfold animationLoop; dsimp only; split <;> simp

@[simp] lemma animationLoop_animationSpeed (t : Int) (s : AnimState) :
    (animationLoop t s).animationSpeed = s.animationSpeed := by
  unfold animationLoop; dsimp only; split <;> simp

end Shapes

namespace Shapes

/-- In one loop execution the frame index and the advance counter either
stay put or move exactly one step modulo the loaded sequence length. -/
lemma animationLoop_frame_cases (t : Int) (s : AnimState) :
    (animationLoop t s).currentFrame = s.currentFrame ∧
      (animationLoop t s).frameCount = s.frameCount ∨
    0 < s.sequenceData.length ∧
      (animationLoop t s).currentFrame = (s.currentFrame + 1) % s.sequenceData.length ∧
      (animationLoop t s).frameCount = s.frameCount + 1 := by
  unfold animationLoop
  dsimp only
  by_cases hd : (initTiming t s).animationSpeed ≤ t - (initTiming t s).startTime
  · rw [advanceIfDue_of_due _ _ hd]
    rcases advanceFrame_cases (updatePerformanceMetrics t (initTiming t s)) with
      ⟨h1, h2, _⟩ | ⟨h0, h1, h2⟩
    · left; constructor <;> split <;> simp [h1, h2]
    · right
      refine ⟨by simpa using h0, ?_, ?_⟩ <;> split <;> simp [h1, h2]
  · rw [advanceIfDue_of_not_due _ _ hd]
    left; constructor <;> split <;> simp

/-- The dropped-frame counter never decreases across a loop execution. -/
lemma animationLoop_droppedFrames_mono (t : Int) (s : AnimState) :
    s.droppedFrames ≤ (animationLoop t s).droppedFrames := by
  unfold animationLoop
  dsimp only
  by_cases hd : (initTiming t s).animationSpeed ≤ t - (initTiming t s).startTime
  · rw [advanceIfDue_of_due _ _ hd]
    split <;>
      simp [updatePerformanceMetrics_droppedFrames] <;> split <;> simp
  · rw [advanceIfDue_of_not_due _ _ hd]
    split <;> simp

end Shapes

namespace Shapes

/-- A loop execution on an initialised state whose interval has not yet
elapsed: nothing changes except `lastFrameTime` and the re-registration. -/
lemma animationLoop_of_not_due (t : Int) (s : AnimState)
    (hinit : s.performanceStart ≠ 0) (h : t - s.startTime < s.animationSpeed) :
    animationLoop t s =
      if s.isAnimating = true
      then { s with lastFrameTime := t, pending := true }
      else { s with lastFrameTime := t } := by
  unfold animationLoop
  rw [initTiming_of_ne t s hinit, advanceIfDue_of_not_due t s (by omega)]

/-- A loop execution on an initialised state whose interval has elapsed:
metrics update, frame advance, baseline and `lastFrameTime` reset, and
re-registration while animating. -/
lemma animationLoop_of_due (t : Int) (s : AnimState)
    (hinit : s.performanceStart ≠ 0) (h : s.animationSpeed ≤ t - s.startTime) :
    animationLoop t s =
      if s.isAnimating = true
      then { advanceFrame (updatePerformanceMetrics t s) with
             lastFrameTime := t, startTime := t, pending := true }
      else { advanceFrame (updatePerformanceMetrics t s) with
             lastFrameTime := t, startTime := t } := by
  unfold animationLoop
  rw [initTiming_of_ne t s hinit, advanceIfDue_of_due t s h]
  have hb : (advanceFrame (updatePerformanceMetrics t s)).isAnimating
      = s.isAnimating := by simp
  simp only [hb]

/-- Along any run of the loop, the loaded sequence is unchanged and the
frame index stays congruent to the advance counter modulo its length. -/
lemma runTicks_frame_invariant (ts : List Int) (s : AnimState)
    (h : s.currentFrame = s.frameCount % s.sequenceData.length) :
    (runTicks ts s).sequenceData = s.sequenceData ∧
    (runTicks ts s).currentFrame = (runTicks ts s).frameCount % s.sequenceData.length := by
  induction ts generalizing s with
  | nil => exact ⟨rfl, h⟩
  | cons t ts ih =>
      have hseq : (animationLoop t s).sequenceData = s.sequenceData :=
        animationLoop_sequenceData t s
      have hstep : (animationLoop t s).currentFrame =
          (animationLoop t s).frameCount % (animationLoop t s).sequenceData.length := by
        rw [hseq]
        rcases animationLoop_frame_cases t s with ⟨h1, h2⟩ | ⟨h0, h1, h2⟩
        · rw [h1, h2, h]
        · rw [h1, h2, h, Nat.mod_add_mod]
      have := ih (animationLoop t s) hstep
      rw [hseq] at this
      exact this

end Shapes

namespace Shapes

/-! ## Claim theorems -/

/-- C1: For every loaded sequence of length N ≥ 1, starting from frame
index 0 with the advance counter at 0, after any run of the scheduler's
tick loop the current frame index equals T mod N, where T is the number of
frame advances the run performed (each advance moves the index by 1 modulo
the sequence length, which the run never changes). -/
theorem frame_index_eq_advances_mod_length (s : AnimState) (ts : List Int)
    (_hN : 1 ≤ s.sequenceData.length)
    (h0 : s.currentFrame = 0) (hT : s.frameCount = 0) :
    (runTicks ts s).currentFrame =
      (runTicks ts s).frameCount % s.sequenceData.length ∧
    (runTicks ts s).sequenceData = s.sequenceData := by
  have h := runTicks_frame_invariant ts s (by rw [h0, hT]; simp)
  exact ⟨h.2, h.1⟩

/-- Witness for C1: start the loading sequence (4 frames) at 100ms and run
callbacks at 10, 120, 250 and 260ms; two advances occur and the frame index
is 2 % 4. -/
theorem frame_index_eq_advances_mod_length_witness :
    (runTicks [10, 120, 250, 260] (startMorphing "loading" 100 initState)).currentFrame =
      (runTicks [10, 120, 250, 260] (startMorphing "loading" 100 initState)).frameCount %
        (startMorphing "loading" 100 initState).sequenceData.length ∧
    (runTicks [10, 120, 250, 260] (startMorphing "loading" 100 initState)).sequenceData =
      (startMorphing "loading" 100 initState).sequenceData :=
  frame_index_eq_advances_mod_length (startMorphing "loading" 100 initState)
    [10, 120, 250, 260] (by decide) (by decide) (by decide)

/-- The C2 invariant: whenever a sequence is loaded, the current frame
index is a valid index into it. -/
def FrameIndexValid (s : AnimState) : Prop :=
  s.sequenceData ≠ [] → s.currentFrame < s.sequenceData.length

/-- C2: the frame-index bound is preserved by every operation
(`startMorphing`, `stopMorphing`, `toggleAnimation`, `jumpToFrame` and each
tick of the loop), and switching sequences resets the index to 0. -/
theorem operations_preserve_frame_index_bound (s : AnimState)
    (h : FrameIndexValid s) (n : String) (sp t i : Int) :
    FrameIndexValid (startMorphing n sp s) ∧
    (startMorphing n sp s).currentFrame = 0 ∧
    FrameIndexValid (stopMorphing s) ∧
    FrameIndexValid (toggleAnimation s) ∧
    FrameIndexValid (jumpToFrame i s) ∧
    FrameIndexValid (animationLoop t s) := by
  refine ⟨?_, ?_, ?_, ?_, ?_, ?_⟩
  · rw [startMorphing_eq]
    intro _
    exact getMorphSequence_pos _
  · rw [startMorphing_eq]
  · exact h
  · unfold toggleAnimation
    split_ifs <;> exact h
  · unfold jumpToFrame
    split
    · next hc =>
        intro _
        show i.toNat < s.sequenceData.length
        omega
    · exact h
  · intro hne
    have hseq := animationLoop_sequenceData t s
    have hne' : s.sequenceData ≠ [] := by rw [hseq] at hne; exact hne
    have hlen : 0 < s.sequenceData.length := List.length_pos.mpr hne'
    rcases animationLoop_frame_cases t s with ⟨h1, _⟩ | ⟨_, h1, _⟩
    · rw [hseq, h1]; exact h hne'
    · rw [hseq, h1]; exact Nat.mod_lt _ hlen

/-- Witness for C2 at the freshly mounted hook state. -/
theorem operations_preserve_frame_index_bound_witness :
    FrameIndexValid (startMorphing "concepts" 500 initState) ∧
    (startMorphing "concepts" 500 initState).currentFrame = 0 ∧
    FrameIndexValid (stopMorphing initState) ∧
    FrameIndexValid (toggleAnimation initState) ∧
    FrameIndexValid (jumpToFrame 2 initState) ∧
    FrameIndexValid (animationLoop 7 initState) :=
  operations_preserve_frame_index_bound initState
    (fun hx => absurd rfl hx) "concepts" 500 7 2

/-- C5: for every sequence name, known or unknown, `getMorphSequence`
returns a non-empty frame list, and an unregistered name falls back to the
identity sequence. -/
theorem getSequence_fallback_nonempty (name : String) :
    0 < (getMorphSequence name).length ∧
    (name ∉ getSequenceNames → getMorphSequence name = identitySeq) :=
  ⟨getMorphSequence_pos name, getMorphSequence_of_not_mem name⟩

/-- Witness for C5 at an unregistered name. -/
theorem getSequence_fallback_nonempty_witness :
    0 < (getMorphSequence "warp").length ∧
    ("warp" ∉ getSequenceNames → getMorphSequence "warp" = identitySeq) :=
  getSequence_fallback_nonempty "warp"

/-- C6: starting sequence `b` after sequence `a` — with any ticks of
playback of `a` in between and no intervening `stopMorphing` — resets the
current frame index to 0 under `b`. -/
theorem switch_resets_frame_index (s : AnimState) (a b : String)
    (spa spb : Int) (ts : List Int) :
    (startMorphing b spb (runTicks ts (startMorphing a spa s))).currentFrame = 0 ∧
    (startMorphing b spb (runTicks ts (startMorphing a spa s))).currentSequence =
      (if getSequenceNames.contains b then b else "identity") := by
  rw [startMorphing_eq]
  exact ⟨rfl, rfl⟩

end Shapes

namespace Shapes

/-- C8: `stopMorphing` is idempotent — a second call changes nothing; one
call freezes the frame index, counters, rolling window and published
metrics at their last values, cancels the registered callback and leaves
the scheduler stopped; and on a state that is already in the stopped shape
it is a no-op. -/
theorem stop_idempotent (s : AnimState) :
    stopMorphing (stopMorphing s) = stopMorphing s ∧
    (stopMorphing s).currentFrame = s.currentFrame ∧
    (stopMorphing s).currentSequence = s.currentSequence ∧
    (stopMorphing s).performanceMetrics = s.performanceMetrics ∧
    (stopMorphing s).frameTimes = s.frameTimes ∧
    (stopMorphing s).droppedFrames = s.droppedFrames ∧
    (stopMorphing s).frameCount = s.frameCount ∧
    (stopMorphing s).isAnimating = false ∧
    (stopMorphing s).pending = false ∧
    (s.isAnimating = false ∧ s.pending = false ∧ s.lastFrameTime = 0 ∧
       s.startTime = 0 ∧ s.performanceStart = 0 → stopMorphing s = s) := by
  refine ⟨rfl, rfl, rfl, rfl, rfl, rfl, rfl, rfl, rfl, ?_⟩
  rintro ⟨h1, h2, h3, h4, h5⟩
  cases s
  simp_all [stopMorphing]

/-- Witness for C8 at the freshly mounted hook state (which is stopped). -/
theorem stop_idempotent_witness :
    stopMorphing (stopMorphing initState) = stopMorphing initState ∧
    (stopMorphing initState).currentFrame = initState.currentFrame ∧
    (stopMorphing initState).currentSequence = initState.currentSequence ∧
    (stopMorphing initState).performanceMetrics = initState.performanceMetrics ∧
    (stopMorphing initState).frameTimes = initState.frameTimes ∧
    (stopMorphing initState).droppedFrames = initState.droppedFrames ∧
    (stopMorphing initState).frameCount = initState.frameCount ∧
    (stopMorphing initState).isAnimating = false ∧
    (stopMorphing initState).pending = false ∧
    (initState.isAnimating = false ∧ initState.pending = false ∧
       initState.lastFrameTime = 0 ∧ initState.startTime = 0 ∧
       initState.performanceStart = 0 → stopMorphing initState = initState) :=
  stop_idempotent initState

/-- C9: `jumpToFrame` with any index outside `[0, N)` — in particular `-1`
and `N` — is a silent no-op that leaves the whole state unchanged. -/
theorem jump_out_of_bounds_noop (s : AnimState) (i : Int)
    (h : i < 0 ∨ (s.sequenceData.length : Int) ≤ i) :
    jumpToFrame i s = s ∧
    (jumpToFrame (-1) s).currentFrame = s.currentFrame ∧
    (jumpToFrame ((s.sequenceData.length : Int)) s).currentFrame = s.currentFrame := by
  refine ⟨?_, ?_, ?_⟩
  · unfold jumpToFrame; rw [if_neg (by omega)]
  · unfold jumpToFrame; rw [if_neg (by omega)]
  · unfold jumpToFrame; rw [if_neg (by omega)]

/-- Witness for C9: index 7 is out of range for the 4-frame identity
sequence. -/
theorem jump_out_of_bounds_noop_witness :
    jumpToFrame 7 (startMorphing "identity" 1000 initState) =
      startMorphing "identity" 1000 initState ∧
    (jumpToFrame (-1) (startMorphing "identity" 1000 initState)).currentFrame =
      (startMorphing "identity" 1000 initState).currentFrame ∧
    (jumpToFrame (((startMorphing "identity" 1000 initState).sequenceData.length : Int))
        (startMorphing "identity" 1000 initState)).currentFrame =
      (startMorphing "identity" 1000 initState).currentFrame :=
  jump_out_of_bounds_noop (startMorphing "identity" 1000 initState) 7 (by decide)

/-- C10: the reported active sequence name is always registered — it starts
as "identity", `startMorphing` keeps it registered (an unknown name is
replaced by "identity", never stored), and every other operation leaves it
unchanged. -/
theorem currentSequence_always_registered (s : AnimState)
    (h : s.currentSequence ∈ getSequenceNames) (n : String) (sp t i : Int) :
    initState.currentSequence ∈ getSequenceNames ∧
    (startMorphing n sp s).currentSequence ∈ getSequenceNames ∧
    (n ∉ getSequenceNames → (startMorphing n sp s).currentSequence = "identity") ∧
    (stopMorphing s).currentSequence ∈ getSequenceNames ∧
    (toggleAnimation s).currentSequence ∈ getSequenceNames ∧
    (changeSpeed sp s).currentSequence ∈ getSequenceNames ∧
    (jumpToFrame i s).currentSequence ∈ getSequenceNames ∧
    (animationLoop t s).currentSequence ∈ getSequenceNames := by
  refine ⟨by decide, ?_, ?_, ?_, ?_, ?_, ?_, ?_⟩
  · rw [startMorphing_eq]
    show (if getSequenceNames.contains n then n else "identity") ∈ getSequenceNames
    split
    · next hc => exact List.mem_of_elem_eq_true hc
    · decide
  · intro hn
    rw [startMorphing_eq]
    show (if getSequenceNames.contains n then n else "identity") = "identity"
    rw [if_neg]
    intro hc
    exact hn (List.mem_of_elem_eq_true hc)
  · exact h
  · unfold toggleAnimation
    split_ifs <;> exact h
  · unfold changeSpeed
    split <;> exact h
  · unfold jumpToFrame
    split <;> exact h
  · rw [animationLoop_currentSequence]
    exact h

/-- Witness for C10 with an unknown requested name. -/
theorem currentSequence_always_registered_witness :
    initState.currentSequence ∈ getSequenceNames ∧
    (startMorphing "warpzone" 250 initState).currentSequence ∈ getSequenceNames ∧
    ("warpzone" ∉ getSequenceNames →
      (startMorphing "warpzone" 250 initState).currentSequence = "identity") ∧
    (stopMorphing initState).currentSequence ∈ getSequenceNames ∧
    (toggleAnimation initState).currentSequence ∈ getSequenceNames ∧
    (changeSpeed 250 initState).currentSequence ∈ getSequenceNames ∧
    (jumpToFrame 1 initState).currentSequence ∈ getSequenceNames ∧
    (animationLoop 9 initState).currentSequence ∈ getSequenceNames :=
  currentSequence_always_registered initState (by decide) "warpzone" 250 9 1

end Shapes

namespace Shapes

/-- A concrete Running, timing-initialised scheduler state: the loading
sequence at a 1000ms interval, with all three timing refs at 5ms (as left
by a first callback at timestamp 5). -/
def runningState : AnimState :=
  { initState with
    isAnimating := true
    pending := true
    currentSequence := "loading"
    sequenceData := loadingSeq
    animationSpeed := 1000
    lastFrameTime := 5
    startTime := 5
    performanceStart := 5 }

/-- Counterexample to C3: at timestamp 55 the scheduler is Running and this
callback's inter-callback gap is 50ms, but the 1000ms interval has not
elapsed, so the frame does not advance and the gap is NOT recorded — the
rolling telemetry window stays empty. -/
theorem telemetry_skips_non_advancing_callback :
    runningState.isAnimating = true ∧
    55 - runningState.lastFrameTime = 50 ∧
    runningState.frameTimes = [] ∧
    (animationLoop 55 runningState).frameTimes = [] ∧
    (animationLoop 55 runningState).currentFrame = runningState.currentFrame := by
  decide

/-- C3 amended: while Running, a callback's inter-callback gap is recorded
into the telemetry rolling window only when that callback's elapsed-time
check triggers a frame advance; `lastFrameTime` is still updated on every
callback, so the gap recorded by an advancing callback is measured from the
immediately preceding callback. -/
theorem telemetry_sampled_on_advancing_callbacks (t : Int) (s : AnimState)
    (hinit : s.performanceStart ≠ 0) :
    (t - s.startTime < s.animationSpeed →
       (animationLoop t s).frameTimes = s.frameTimes) ∧
    (s.animationSpeed ≤ t - s.startTime →
       (animationLoop t s).frameTimes =
         (if (s.frameTimes ++ [t - s.lastFrameTime]).length > 60
          then (s.frameTimes ++ [t - s.lastFrameTime]).drop 1
          else s.frameTimes ++ [t - s.lastFrameTime])) ∧
    (animationLoop t s).lastFrameTime = t := by
  refine ⟨?_, ?_, ?_⟩
  · intro h
    rw [animationLoop_of_not_due t s hinit h]
    split <;> rfl
  · intro h
    rw [animationLoop_of_due t s hinit h]
    have hw := updatePerformanceMetrics_frameTimes t s
    split <;> simpa using hw
  · by_cases hd : s.animationSpeed ≤ t - s.startTime
    · rw [animationLoop_of_due t s hinit hd]; split <;> rfl
    · rw [animationLoop_of_not_due t s hinit (by omega)]; split <;> rfl

/-- Witness for the amended C3 at an advancing callback (timestamp 1100,
gap 1095ms) of `runningState`. -/
theorem telemetry_sampled_on_advancing_callbacks_witness :
    (1100 - runningState.startTime < runningState.animationSpeed →
       (animationLoop 1100 runningState).frameTimes = runningState.frameTimes) ∧
    (runningState.animationSpeed ≤ 1100 - runningState.startTime →
       (animationLoop 1100 runningState).frameTimes =
         (if (runningState.frameTimes ++ [1100 - runningState.lastFrameTime]).length > 60
          then (runningState.frameTimes ++ [1100 - runningState.lastFrameTime]).drop 1
          else runningState.frameTimes ++ [1100 - runningState.lastFrameTime])) ∧
    (animationLoop 1100 runningState).lastFrameTime = 1100 :=
  telemetry_sampled_on_advancing_callbacks 1100 runningState (by decide)

/-- Counterexample to C4: `runningState` has interval 1000ms and an advance
baseline of 5ms, so the in-flight advance's old boundary is 1005ms; after
`changeSpeed 100`, the callback at timestamp 300 — before that old boundary
— already advances the frame: the pending advance is compared against the
NEW interval, not the old one. -/
theorem speed_change_affects_inflight_advance :
    runningState.animationSpeed = 1000 ∧
    runningState.currentFrame = 0 ∧
    (changeSpeed 100 runningState).startTime = runningState.startTime ∧
    300 - runningState.startTime < 1000 ∧
    (animationLoop 300 (changeSpeed 100 runningState)).currentFrame = 1 := by
  decide

/-- C4 amended: `changeSpeed` (with a positive value) updates the stored
interval immediately and touches neither the elapsed-time baseline nor the
frame index; the very next callback already compares the elapsed time
against the NEW interval, so the advance that was in flight completes at
the new interval's boundary measured from the last advance. -/
theorem speed_change_next_callback (s : AnimState) (n t : Int)
    (hpos : 0 < n) (hinit : s.performanceStart ≠ 0)
    (hseq : 0 < s.sequenceData.length) :
    (changeSpeed n s).animationSpeed = n ∧
    (changeSpeed n s).startTime = s.startTime ∧
    (changeSpeed n s).currentFrame = s.currentFrame ∧
    (n ≤ t - s.startTime →
       (animationLoop t (changeSpeed n s)).currentFrame =
         (s.currentFrame + 1) % s.sequenceData.length) ∧
    (t - s.startTime < n →
       (animationLoop t (changeSpeed n s)).currentFrame = s.currentFrame) := by
  have hc : changeSpeed n s = { s with animationSpeed := n } := if_pos hpos
  rw [hc]
  refine ⟨rfl, rfl, rfl, ?_, ?_⟩
  · intro h
    rw [animationLoop_of_due t { s with animationSpeed := n } hinit h]
    rcases advanceFrame_cases (updatePerformanceMetrics t { s with animationSpeed := n }) with
      ⟨_, _, hlen⟩ | ⟨_, h1, _⟩
    · exact absurd (by simpa using hlen : s.sequenceData = [])
        (List.length_pos.mp hseq)
    · split <;> simpa using h1
  · intro h
    rw [animationLoop_of_not_due t { s with animationSpeed := n } hinit h]
    split <;> rfl

/-- Witness for the amended C4: change `runningState`'s interval from
1000ms to 100ms; the callback at timestamp 300 advances. -/
theorem speed_change_next_callback_witness :
    (changeSpeed 100 runningState).animationSpeed = 100 ∧
    (changeSpeed 100 runningState).startTime = runningState.startTime ∧
    (changeSpeed 100 runningState).currentFrame = runningState.currentFrame ∧
    (100 ≤ 300 - runningState.startTime →
       (animationLoop 300 (changeSpeed 100 runningState)).currentFrame =
         (runningState.currentFrame + 1) % runningState.sequenceData.length) ∧
    (300 - runningState.startTime < 100 →
       (animationLoop 300 (changeSpeed 100 runningState)).currentFrame =
         runningState.currentFrame) :=
  speed_change_next_callback runningState 100 300 (by decide) (by decide) (by decide)

/-- Counterexample to C7: at timestamp 40 the inter-callback gap of
`runningState` is 35ms, above the 20ms threshold, yet the callback does not
advance (1000ms interval) and the dropped-frame counter stays 0 — a gap
above 20ms on its own does not increment the counter. -/
theorem dropped_gap_ignored_without_advance :
    runningState.isAnimating = true ∧
    40 - runningState.lastFrameTime = 35 ∧
    runningState.droppedFrames = 0 ∧
    (animationLoop 40 runningState).droppedFrames = 0 := by
  decide

/-- C7 amended: a gap above 20ms increments the dropped-frame counter on
callbacks that advance the frame (non-advancing callbacks never examine
their gap); the counter never decreases across callbacks or any other
operation; `stopMorphing` leaves the dropped and total counters unchanged;
only `startMorphing` resets them to 0. -/
theorem dropped_frame_counter_semantics (s : AnimState) (t sp i : Int)
    (n : String) (hinit : s.performanceStart ≠ 0) :
    (s.animationSpeed ≤ t - s.startTime → 20 < t - s.lastFrameTime →
       (animationLoop t s).droppedFrames = s.droppedFrames + 1) ∧
    s.droppedFrames ≤ (animationLoop t s).droppedFrames ∧
    (stopMorphing s).droppedFrames = s.droppedFrames ∧
    (stopMorphing s).frameCount = s.frameCount ∧
    (changeSpeed sp s).droppedFrames = s.droppedFrames ∧
    (jumpToFrame i s).droppedFrames = s.droppedFrames ∧
    (toggleAnimation s).droppedFrames = s.droppedFrames ∧
    (startMorphing n sp s).droppedFrames = 0 ∧
    (startMorphing n sp s).frameCount = 0 := by
  refine ⟨?_, animationLoop_droppedFrames_mono t s, rfl, rfl, ?_, ?_, ?_, ?_, ?_⟩
  · intro hdue hgap
    rw [animationLoop_of_due t s hinit hdue]
    have hd := updatePerformanceMetrics_droppedFrames t s
    rw [if_pos hgap] at hd
    split <;> simpa using hd
  · unfold changeSpeed; split <;> rfl
  · unfold jumpToFrame; split <;> rfl
  · unfold toggleAnimation; split_ifs <;> rfl
  · rw [startMorphing_eq]
  · rw [startMorphing_eq]

/-- Witness for the amended C7 at an advancing callback of `runningState`
(timestamp 1100: elapsed 1095 ≥ 1000, gap 1095 > 20). -/
theorem dropped_frame_counter_semantics_witness :
    (runningState.animationSpeed ≤ 1100 - runningState.startTime →
       20 < 1100 - runningState.lastFrameTime →
       (animationLoop 1100 runningState).droppedFrames =
         runningState.droppedFrames + 1) ∧
    runningState.droppedFrames ≤ (animationLoop 1100 runningState).droppedFrames ∧
    (stopMorphing runningState).droppedFrames = runningState.droppedFrames ∧
    (stopMorphing runningState).frameCount = runningState.frameCount ∧
    (changeSpeed 400 runningState).droppedFrames = runningState.droppedFrames ∧
    (jumpToFrame 2 runningState).droppedFrames = runningState.droppedFrames ∧
    (toggleAnimation runningState).droppedFrames = runningState.droppedFrames ∧
    (startMorphing "concepts" 400 runningState).droppedFrames = 0 ∧
    (startMorphing "concepts" 400 runningState).frameCount = 0 :=
  dropped_frame_counter_semantics runningState 1100 400 2 "concepts" (by decide)

end Shapes
